import Mathlib

/-!
Shallow embedding of the chat-relay backend (Express + Supabase + Gemini).
Pure functions are translated directly; Supabase calls are modelled as
operations on an explicit `Store` state with explicit error flags for each
fallible call; the Gemini HTTP exchange is modelled as a `GeminiResponse`
value supplied by the environment.
-/

namespace Chatbot

/-- A row of the `chat_messages` table. -/
structure ChatMessage where
  id : Nat
  chat_id : Nat
  role : String
  content : String
  created_at : Nat
deriving DecidableEq

/-- A row of the `chat_sessions` table. -/
structure ChatSession where
  id : Nat
  user_id : String
  title : String
  created_at : Nat
  updated_at : Nat
deriving DecidableEq

/-- The persisted database state: both Supabase tables. -/
structure Store where
  sessions : List ChatSession
  messages : List ChatMessage
deriving DecidableEq

/-- Stable insertion (ascending by `key`) used to model `order(..., ascending: true)`. -/
def insertAsc {α : Type} (key : α → Nat) (a : α) : List α → List α
  | [] => [a]
  | b :: l => if key a ≤ key b then a :: b :: l else b :: insertAsc key a l

/-- Stable sort ascending by `key`. -/
def sortAsc {α : Type} (key : α → Nat) : List α → List α
  | [] => []
  | a :: l => insertAsc key a (sortAsc key l)

/-- Stable insertion (descending by `key`) used to model `order(..., ascending: false)`. -/
def insertDesc {α : Type} (key : α → Nat) (a : α) : List α → List α
  | [] => [a]
  | b :: l => if key b ≤ key a then a :: b :: l else b :: insertDesc key a l

/-- Stable sort descending by `key`. -/
def sortDesc {α : Type} (key : α → Nat) : List α → List α
  | [] => []
  | a :: l => insertDesc key a (sortDesc key l)

/-- The fixed system preamble of `buildContextPrompt`. -/
def preamble : String := "You are a helpful AI assistant. "

/-- The header introducing the conversation history. -/
def historyHeader : String := "Here\x27s our conversation history for context:\n\n"

/-- The instruction appended after the rendered history. -/
def contextInstruction : String :=
  "\nBased on this conversation context, please provide a helpful and relevant response to: "

/-- The instruction used when there is no history. -/
def genericInstruction : String :=
  "Please provide a clear, concise, and helpful response to: "

/-- One line of rendered history: `"<Role>: <content>\n"`, label `User` for
role `"user"` and `Assistant` otherwise. -/
def renderMsg (m : ChatMessage) : String :=
  (if m.role = "user" then "User" else "Assistant") ++ ": " ++ m.content ++ "\n"

/-- JS `slice(-n)`: the last `n` elements (the whole list when shorter). -/
def lastN {α : Type} (n : Nat) (l : List α) : List α :=
  l.drop (l.length - n)

/-- `buildContextPrompt(currentMessage, chatHistory)`: the pure Context Builder. -/
def buildContextPrompt (currentMessage : String) (chatHistory : List ChatMessage) : String :=
  if 0 < chatHistory.length then
    preamble ++ historyHeader ++ String.join ((lastN 10 chatHistory).map renderMsg)
      ++ contextInstruction ++ currentMessage
  else
    preamble ++ genericInstruction ++ currentMessage

/-- Messages of one session: the `eq("chat_id", chatId)` filter. -/
def sessionMessages (st : Store) (chatId : Nat) : List ChatMessage :=
  st.messages.filter (fun m => m.chat_id == chatId)

/-- Sessions of one user: the `eq("user_id", userId)` filter. -/
def userSessions (st : Store) (userId : String) : List ChatSession :=
  st.sessions.filter (fun s => s.user_id == userId)

/-- `getChatHistory(chatId, limit)`: select the session messages ordered by
`created_at` ascending, limited to `limit` rows; every store error (and any
thrown exception) is swallowed and yields `[]`. -/
def getChatHistory (st : Store) (chatId : Nat) (limit : Nat) (err : Bool) :
    List ChatMessage :=
  if err then []
  else (sortAsc (fun m => m.created_at) (sessionMessages st chatId)).take limit

/-- `saveMessage(chatId, role, content)`: insert a message row; on error the
store is unchanged and `null` is returned. -/
def saveMessage (st : Store) (chatId : Nat) (role content : String)
    (newId now : Nat) (err : Bool) : Store × Option ChatMessage :=
  if err then (st, none)
  else
    let m : ChatMessage :=
      { id := newId, chat_id := chatId, role := role, content := content, created_at := now }
    ({ st with messages := st.messages ++ [m] }, some m)

/-- JS falsiness of the `title` argument (`null` or the empty string). -/
def titleFalsy : Option String → Bool
  | none => true
  | some t => t == ""

/-- The insert half of `getOrCreateChatSession`: create a session titled
`title || "New Chat"`. -/
def createSession (st : Store) (userId : String) (title : Option String)
    (newId now : Nat) (insErr : Bool) : Store × Option ChatSession :=
  if insErr then (st, none)
  else
    let t := match title with
      | some t => if t = "" then "New Chat" else t
      | none => "New Chat"
    let s : ChatSession :=
      { id := newId, user_id := userId, title := t, created_at := now, updated_at := now }
    ({ st with sessions := st.sessions ++ [s] }, some s)

/-- `getOrCreateChatSession(userId, title)`: when `title` is falsy, try to
reuse the caller's most-recently-updated session (select ordered by
`updated_at` descending, limit 1); otherwise, or when none exists, insert a
new session. A select error returns `null` without creating. -/
def getOrCreateChatSession (st : Store) (userId : String) (title : Option String)
    (newId now : Nat) (selErr insErr : Bool) : Store × Option ChatSession :=
  if titleFalsy title then
    if selErr then (st, none)
    else
      match (sortDesc (fun s => s.updated_at) (userSessions st userId)).head? with
      | some s => (st, some s)
      | none => createSession st userId title newId now insErr
  else createSession st userId title newId now insErr

/-- `updateChatSession(chatId)`: refresh `updated_at`; errors are swallowed. -/
def updateChatSession (st : Store) (chatId now : Nat) (err : Bool) : Store :=
  if err then st
  else { st with
    sessions := st.sessions.map (fun s =>
      if s.id == chatId then { s with updated_at := now } else s) }

/-- The `/chat` route's title derivation:
`message.length > 50 ? message.substring(0, 50) + "..." : message`. -/
def deriveTitle (message : String) : String :=
  if 50 < message.length then message.take 50 ++ "..." else message

/-- One candidate of a Gemini response: its finish reason and the text at
`content.parts[0].text` when present. -/
structure Candidate where
  finishReason : Option String
  text : Option String
deriving DecidableEq

/-- The Gemini HTTP exchange as seen by the handler: `response.ok`, the HTTP
status and status text, `data.error.message` when an error object is present,
and `data.candidates`. -/
structure GeminiResponse where
  ok : Bool
  status : Nat
  statusText : String
  errMsg : Option String
  candidates : Option (List Candidate)
deriving DecidableEq

/-- Substring test modelling JS `String.prototype.includes`. -/
def strContains (s sub : String) : Bool :=
  (List.range (s.length + 1)).any (fun i => sub.toList.isPrefixOf (s.toList.drop i))

/-- The handler's response-validation ladder: non-ok responses are mapped to
credential / quota / generic messages, an empty candidate list and a SAFETY
finish reason each throw their own message; otherwise the top candidate is
returned. -/
def geminiOutcome (g : GeminiResponse) : Except String Candidate :=
  if g.ok = false then
    match g.errMsg with
    | some em =>
      if strContains em "API key" then
        Except.error "Invalid or expired API key. Please check your Gemini API key."
      else if strContains em "quota" then
        Except.error "API quota exceeded. Please check your Gemini API usage."
      else Except.error (if em = "" then "Gemini API error" else em)
    | none => Except.error ("HTTP " ++ toString g.status ++ ": " ++ g.statusText)
  else
    match g.candidates with
    | none => Except.error "No response generated by Gemini API"
    | some [] => Except.error "No response generated by Gemini API"
    | some (c :: _) =>
      if c.finishReason = some "SAFETY" then
        Except.error "Content was filtered for safety reasons. Please try rephrasing your message."
      else Except.ok c

/-- `candidate?.content?.parts?.[0]?.text || fallback`. -/
def extractReply (c : Candidate) : String :=
  match c.text with
  | some t => if t = "" then "Sorry, I couldn\x27t generate a response." else t
  | none => "Sorry, I couldn\x27t generate a response."

/-- A JSON HTTP response, with one optional field per key the routes emit. -/
structure HttpResponse where
  status : Nat
  error : Option String
  details : Option String
  message : Option String
  reply : Option String
  chatId : Option Nat
  contextUsed : Option Bool
deriving DecidableEq

/-- An `HttpResponse` with every field empty, to be overridden per route. -/
def emptyResponse : HttpResponse :=
  { status := 200, error := none, details := none, message := none,
    reply := none, chatId := none, contextUsed := none }

/-- Failure flags for each fallible store call of one turn, plus the Gemini
exchange the environment will answer with. -/
structure ChatEnv where
  gemini : GeminiResponse
  sessSelErr : Bool
  sessInsErr : Bool
  saveUserErr : Bool
  historyErr : Bool
  saveBotErr : Bool
  touchErr : Bool
deriving DecidableEq

/-- Fresh row ids and timestamps the store would generate during one turn. -/
structure FreshIds where
  sessionId : Nat
  userMsgId : Nat
  botMsgId : Nat
  tSession : Nat
  tUserMsg : Nat
  tBotMsg : Nat
  tTouch : Nat
deriving DecidableEq

/-- The observable outcome of one `/chat` turn: the HTTP response, the store
afterwards, whether the generation backend was called, and the prompt sent. -/
structure TurnResult where
  response : HttpResponse
  store : Store
  generationCalled : Bool
  promptSent : Option String
deriving DecidableEq

/-- The scoped lookup `eq("id", chatId).eq("user_id", userId).single()`. -/
def lookupSession (st : Store) (userId : String) (chatId : Nat) : Option ChatSession :=
  st.sessions.find? (fun s => s.id == chatId && s.user_id == userId)

/-- Session resolution of the `/chat` route: use the scoped lookup when a
`chatId` was supplied; when it is absent or finds nothing, call
`getOrCreateChatSession` with the title derived from the message. -/
def resolveSession (st : Store) (userId message : String) (chatId : Option Nat)
    (fresh : FreshIds) (env : ChatEnv) : Store × Option ChatSession :=
  let looked : Option ChatSession :=
    match chatId with
    | some cid => lookupSession st userId cid
    | none => none
  match looked with
  | some s => (st, some s)
  | none =>
    getOrCreateChatSession st userId (some (deriveTitle message))
      fresh.sessionId fresh.tSession env.sessSelErr env.sessInsErr

/-- The rest of the turn once a session is resolved: best-effort user-message
save, history fetch, prompt build, generation, best-effort bot-message save
and session touch; thrown generation errors land in the catch-all 500. -/
def turnWithSession (st1 : Store) (env : ChatEnv) (message : String)
    (sess : ChatSession) (fresh : FreshIds) : TurnResult :=
  let st2 := (saveMessage st1 sess.id "user" message fresh.userMsgId fresh.tUserMsg
    env.saveUserErr).1
  let chatHistory := getChatHistory st2 sess.id 10 env.historyErr
  let prompt := buildContextPrompt message chatHistory
  match geminiOutcome env.gemini with
  | Except.error msg =>
    { response := { emptyResponse with
        status := 500, error := some "Internal server error", details := some msg },
      store := st2, generationCalled := true, promptSent := some prompt }
  | Except.ok cand =>
    let aiResponse := extractReply cand
    let st3 := (saveMessage st2 sess.id "bot" aiResponse fresh.botMsgId fresh.tBotMsg
      env.saveBotErr).1
    let st4 := updateChatSession st3 sess.id fresh.tTouch env.touchErr
    { response := { emptyResponse with
        status := 200, reply := some aiResponse, chatId := some sess.id,
        contextUsed := some (decide (0 < chatHistory.length)) },
      store := st4, generationCalled := true, promptSent := some prompt }

/-- `app.post("/chat")`: validation, session resolution, then the turn body. -/
def handleChatTurn (st : Store) (env : ChatEnv) (userId message : String)
    (chatId : Option Nat) (fresh : FreshIds) : TurnResult :=
  if userId = "" ∨ message = "" then
    { response := { emptyResponse with
        status := 400, error := some "userId and message are required" },
      store := st, generationCalled := false, promptSent := none }
  else
    match resolveSession st userId message chatId fresh env with
    | (st1, none) =>
      { response := { emptyResponse with
          status := 500, error := some "Failed to create/get chat session" },
        store := st1, generationCalled := false, promptSent := none }
    | (st1, some sess) => turnWithSession st1 env message sess fresh

/-- `app.get("/chat-messages/:chatId")`: the session's messages ordered by
`created_at` ascending. -/
def fetchChatMessages (st : Store) (chatId : Nat) : List ChatMessage :=
  sortAsc (fun m => m.created_at) (sessionMessages st chatId)

/-- `app.get("/chat-sessions/:userId")`: the user's sessions ordered by
`updated_at` descending. -/
def fetchChatSessions (st : Store) (userId : String) : List ChatSession :=
  sortDesc (fun s => s.updated_at) (userSessions st userId)

/-- `app.delete("/chat-sessions/:chatId")`: delete the session's messages
(result ignored), then the session row; only a session-row error is reported. -/
def deleteChatSession (st : Store) (chatId : Nat) (msgDelErr sesDelErr : Bool) :
    Store × HttpResponse :=
  let st1 :=
    if msgDelErr then st
    else { st with messages := st.messages.filter (fun m => m.chat_id != chatId) }
  if sesDelErr then
    (st1, { emptyResponse with status := 500, error := some "Failed to delete chat session" })
  else
    ({ st1 with sessions := st1.sessions.filter (fun s => s.id != chatId) },
     { emptyResponse with status := 200, message := some "Chat session deleted successfully" })

/-! ### Library lemmas about the sort model -/

theorem length_insertAsc {α : Type} (key : α → Nat) (a : α) (l : List α) :
    (insertAsc key a l).length = l.length + 1 := by
  induction l with
  | nil => rfl
  | cons b t ih =>
    simp only [insertAsc]
    split
    · rfl
    · simp [ih]

theorem length_sortAsc {α : Type} (key : α → Nat) (l : List α) :
    (sortAsc key l).length = l.length := by
  induction l with
  | nil => rfl
  | cons a t ih => simp [sortAsc, length_insertAsc, ih]

theorem mem_insertAsc {α : Type} (key : α → Nat) (a x : α) (l : List α) :
    x ∈ insertAsc key a l ↔ x = a ∨ x ∈ l := by
  induction l with
  | nil => simp [insertAsc]
  | cons b t ih =>
    simp only [insertAsc]
    split
    · simp [List.mem_cons]
    · simp only [List.mem_cons, ih]
      tauto

theorem mem_sortAsc {α : Type} (key : α → Nat) (x : α) (l : List α) :
    x ∈ sortAsc key l ↔ x ∈ l := by
  induction l with
  | nil => simp [sortAsc]
  | cons a t ih => simp [sortAsc, mem_insertAsc, ih]

theorem pairwise_insertAsc {α : Type} (key : α → Nat) (a : α) (l : List α)
    (hl : l.Pairwise (fun x y => key x ≤ key y)) :
    (insertAsc key a l).Pairwise (fun x y => key x ≤ key y) := by
  induction l with
  | nil => simp [insertAsc]
  | cons b t ih =>
    rw [List.pairwise_cons] at hl
    obtain ⟨hb, ht⟩ := hl
    simp only [insertAsc]
    split
    · rename_i hab
      refine List.pairwise_cons.mpr ⟨?_, List.pairwise_cons.mpr ⟨hb, ht⟩⟩
      intro y hy
      rcases List.mem_cons.mp hy with rfl | hy
      · exact hab
      · exact le_trans hab (hb y hy)
    · rename_i hab
      refine List.pairwise_cons.mpr ⟨?_, ih ht⟩
      intro y hy
      rcases (mem_insertAsc key a y t).mp hy with rfl | hy
      · omega
      · exact hb y hy

theorem pairwise_sortAsc {α : Type} (key : α → Nat) (l : List α) :
    (sortAsc key l).Pairwise (fun x y => key x ≤ key y) := by
  induction l with
  | nil => simp [sortAsc]
  | cons a t ih => exact pairwise_insertAsc key a _ ih

theorem length_insertDesc {α : Type} (key : α → Nat) (a : α) (l : List α) :
    (insertDesc key a l).length = l.length + 1 := by
  induction l with
  | nil => rfl
  | cons b t ih =>
    simp only [insertDesc]
    split
    · rfl
    · simp [ih]

theorem length_sortDesc {α : Type} (key : α → Nat) (l : List α) :
    (sortDesc key l).length = l.length := by
  induction l with
  | nil => rfl
  | cons a t ih => simp [sortDesc, length_insertDesc, ih]

theorem mem_insertDesc {α : Type} (key : α → Nat) (a x : α) (l : List α) :
    x ∈ insertDesc key a l ↔ x = a ∨ x ∈ l := by
  induction l with
  | nil => simp [insertDesc]
  | cons b t ih =>
    simp only [insertDesc]
    split
    · simp [List.mem_cons]
    · simp only [List.mem_cons, ih]
      tauto

theorem mem_sortDesc {α : Type} (key : α → Nat) (x : α) (l : List α) :
    x ∈ sortDesc key l ↔ x ∈ l := by
  induction l with
  | nil => simp [sortDesc]
  | cons a t ih => simp [sortDesc, mem_insertDesc, ih]

theorem pairwise_insertDesc {α : Type} (key : α → Nat) (a : α) (l : List α)
    (hl : l.Pairwise (fun x y => key y ≤ key x)) :
    (insertDesc key a l).Pairwise (fun x y => key y ≤ key x) := by
  induction l with
  | nil => simp [insertDesc]
  | cons b t ih =>
    rw [List.pairwise_cons] at hl
    obtain ⟨hb, ht⟩ := hl
    simp only [insertDesc]
    split
    · rename_i hab
      refine List.pairwise_cons.mpr ⟨?_, List.pairwise_cons.mpr ⟨hb, ht⟩⟩
      intro y hy
      rcases List.mem_cons.mp hy with rfl | hy
      · exact hab
      · exact le_trans (hb y hy) hab
    · rename_i hab
      refine List.pairwise_cons.mpr ⟨?_, ih ht⟩
      intro y hy
      rcases (mem_insertDesc key a y t).mp hy with rfl | hy
      · omega
      · exact hb y hy

theorem pairwise_sortDesc {α : Type} (key : α → Nat) (l : List α) :
    (sortDesc key l).Pairwise (fun x y => key y ≤ key x) := by
  induction l with
  | nil => simp [sortDesc]
  | cons a t ih => exact pairwise_insertDesc key a _ ih

/-- The head of the descending sort dominates every element of the list. -/
theorem sortDesc_head_max {α : Type} (key : α → Nat) (l : List α) (s : α)
    (hs : (sortDesc key l).head? = some s) :
    s ∈ l ∧ ∀ t ∈ l, key t ≤ key s := by
  cases hd : sortDesc key l with
  | nil => rw [hd] at hs; exact absurd hs (by simp)
  | cons a r =>
    rw [hd] at hs
    simp only [List.head?_cons, Option.some.injEq] at hs
    subst hs
    have hmem : a ∈ l := (mem_sortDesc key a l).mp (by rw [hd]; exact List.mem_cons_self ..)
    refine ⟨hmem, ?_⟩
    intro t ht
    have ht' : t ∈ sortDesc key l := (mem_sortDesc key t l).mpr ht
    rw [hd] at ht'
    rcases List.mem_cons.mp ht' with rfl | ht'
    · exact le_refl _
    · have hp := pairwise_sortDesc key l
      rw [hd, List.pairwise_cons] at hp
      exact hp.1 t ht'

/-! ### Concrete fixtures used by counterexamples and witnesses -/

/-- A Gemini exchange that succeeds with a normal candidate. -/
def okGemini : GeminiResponse :=
  { ok := true, status := 200, statusText := "OK", errMsg := none,
    candidates := some [{ finishReason := some "STOP", text := some "Hi there" }] }

/-- A Gemini exchange whose top candidate was safety-filtered. -/
def safetyGemini : GeminiResponse :=
  { ok := true, status := 200, statusText := "OK", errMsg := none,
    candidates := some [{ finishReason := some "SAFETY", text := none }] }

/-- An environment in which every store call succeeds. -/
def okEnv : ChatEnv :=
  { gemini := okGemini, sessSelErr := false, sessInsErr := false,
    saveUserErr := false, historyErr := false, saveBotErr := false, touchErr := false }

/-- Fresh ids and timestamps for one concrete turn. -/
def exFresh : FreshIds :=
  { sessionId := 7, userMsgId := 21, botMsgId := 22,
    tSession := 100, tUserMsg := 101, tBotMsg := 102, tTouch := 103 }

/-- The empty store. -/
def emptyStore : Store := { sessions := [], messages := [] }

/-- A 51-character message, exercising the truncation branch. -/
def msg51 : String :=
  "aaaaaaaaaaaaaaaaaaaaaaaaaaaaaaaaaaaaaaaaaaaaaaaaaab"

/-! ### Helper lemmas about the title and prompt -/

theorem length_take_string (m : String) (n : Nat) :
    (m.take n).length = min n m.length := by
  show (m.take n).data.length = min n m.data.length
  rw [String.data_take, List.length_take]

theorem deriveTitle_ne_empty (m : String) (hm : m ≠ "") : deriveTitle m ≠ "" := by
  unfold deriveTitle
  split
  · intro hcontra
    have hlen := congrArg String.length hcontra
    rw [String.length_append] at hlen
    have h3 : ("..." : String).length = 3 := rfl
    have h0 : ("" : String).length = 0 := rfl
    omega
  · exact hm

/-! ### C5: title truncation -/

set_option maxRecDepth 4000 in
/-- C5 counterexample: for a 51-character message the derived title appends
three ASCII periods `"..."`, not the single ellipsis character `"…"` the
claim requires, so the claim fails at this input. -/
theorem deriveTitle_ellipsis_cex :
    deriveTitle msg51 = msg51.take 50 ++ "..." ∧
    deriveTitle msg51 ≠ msg51.take 50 ++ "…" := by
  decide

/-- C5 (amended): the derived title is the message unchanged when its length
is at most 50, and the first 50 characters followed by `"..."` (three ASCII
periods, 53 characters in total) when the length exceeds 50. -/
theorem deriveTitle_spec (m : String) :
    (m.length ≤ 50 → deriveTitle m = m) ∧
    (50 < m.length →
      deriveTitle m = m.take 50 ++ "..." ∧ (deriveTitle m).length = 53) := by
  constructor
  · intro h
    unfold deriveTitle
    rw [if_neg (by omega)]
  · intro h
    unfold deriveTitle
    rw [if_pos h]
    refine ⟨rfl, ?_⟩
    rw [String.length_append, length_take_string]
    have h3 : ("..." : String).length = 3 := rfl
    omega

/-- C5 witness: both branches of the amended theorem, at concrete inputs. -/
theorem deriveTitle_spec_witness :
    deriveTitle "Hello" = "Hello" ∧ deriveTitle msg51 = msg51.take 50 ++ "..." :=
  ⟨(deriveTitle_spec "Hello").1 (by decide), ((deriveTitle_spec msg51).2 (by decide)).1⟩

/-! ### C6: the Context Builder -/

/-- C6: with empty history the prompt is the preamble, the generic
respond-clearly instruction, then the current message verbatim; with
non-empty history it is the preamble, the history header, the renderings of
at most the last 10 entries in original order (a suffix of the history),
each labelled `User` for role `"user"` and `Assistant` otherwise, then the
context instruction and the current message verbatim. -/
theorem buildContextPrompt_spec (msg : String) (h : List ChatMessage) :
    (h = [] → buildContextPrompt msg h = preamble ++ genericInstruction ++ msg) ∧
    (h ≠ [] →
      buildContextPrompt msg h =
        preamble ++ historyHeader ++ String.join ((lastN 10 h).map renderMsg)
          ++ contextInstruction ++ msg ∧
      (lastN 10 h).length ≤ 10 ∧
      lastN 10 h <:+ h ∧
      ∀ m ∈ lastN 10 h,
        renderMsg m =
          (if m.role = "user" then "User" else "Assistant") ++ ": " ++ m.content ++ "\n") := by
  constructor
  · intro he
    subst he
    rfl
  · intro hne
    have hpos : 0 < h.length := List.length_pos.mpr hne
    refine ⟨?_, ?_, ?_, ?_⟩
    · unfold buildContextPrompt
      rw [if_pos hpos]
    · unfold lastN
      rw [List.length_drop]
      omega
    · exact List.drop_suffix _ _
    · intro m _
      rfl

/-- A concrete history entry used by the C6 witness. -/
def exMsgA : ChatMessage :=
  { id := 1, chat_id := 1, role := "user", content := "a", created_at := 0 }

/-- C6 witness: the theorem applied at a concrete message with empty and
non-empty concrete histories. -/
theorem buildContextPrompt_spec_witness :
    buildContextPrompt "Hi" [] = preamble ++ genericInstruction ++ "Hi" ∧
    (lastN 10 [exMsgA]).length ≤ 10 :=
  ⟨(buildContextPrompt_spec "Hi" []).1 rfl,
   ((buildContextPrompt_spec "x" [exMsgA]).2 (by decide)).2.1⟩

/-! ### C2: the context fetch -/

/-- A message of the eleven-message fixture session, with `created_at = i`. -/
def mkMsg (i : Nat) : ChatMessage :=
  { id := i, chat_id := 1, role := "user", content := "m", created_at := i }

/-- A store whose session 1 holds eleven messages, timestamps 0 to 10. -/
def elevenStore : Store :=
  { sessions := [{ id := 1, user_id := "u1", title := "t", created_at := 0, updated_at := 0 }],
    messages := (List.range 11).map mkMsg }

/-- C2 counterexample: for a session of eleven messages the fetch returns the
ten OLDEST messages (timestamps 0 to 9) — the most recent message
(timestamp 10) is not fetched, so the fetched slice is not the last 10 by
`created_at` as the claim states. -/
theorem getChatHistory_cex :
    (getChatHistory elevenStore 1 10 false).map (fun m => m.created_at)
      = [0, 1, 2, 3, 4, 5, 6, 7, 8, 9] ∧
    (sessionMessages elevenStore 1).length = 11 ∧
    mkMsg 10 ∈ sessionMessages elevenStore 1 ∧
    mkMsg 10 ∉ getChatHistory elevenStore 1 10 false := by
  decide

/-- C2 (amended): the context fetch reads up to the 10 OLDEST messages of the
session: its result holds only messages of the session, is sorted ascending
by `created_at`, has length `min 10` (session size), and every session
message left out is at least as recent as every fetched one. -/
theorem getChatHistory_spec (st : Store) (cid : Nat) :
    (∀ m ∈ getChatHistory st cid 10 false, m.chat_id = cid) ∧
    (getChatHistory st cid 10 false).Pairwise
      (fun a b => a.created_at ≤ b.created_at) ∧
    (getChatHistory st cid 10 false).length = min 10 (sessionMessages st cid).length ∧
    (∀ m ∈ getChatHistory st cid 10 false, ∀ m2 ∈ sessionMessages st cid,
      m2 ∉ getChatHistory st cid 10 false → m.created_at ≤ m2.created_at) := by
  have hdef : getChatHistory st cid 10 false
      = (sortAsc (fun m => m.created_at) (sessionMessages st cid)).take 10 := rfl
  refine ⟨?_, ?_, ?_, ?_⟩
  · intro m hm
    rw [hdef] at hm
    have hm' : m ∈ sortAsc (fun m => m.created_at) (sessionMessages st cid) :=
      (List.take_sublist 10 _).mem hm
    have hm'' : m ∈ sessionMessages st cid := (mem_sortAsc _ m _).mp hm'
    have := List.mem_filter.mp hm''
    simpa using this.2
  · rw [hdef]
    exact (pairwise_sortAsc (fun m => m.created_at) (sessionMessages st cid)).sublist
      (List.take_sublist 10 _)
  · rw [hdef, List.length_take, length_sortAsc]
  · intro m hm m2 hm2 hnot
    rw [hdef] at hm hnot
    have hsorted := pairwise_sortAsc (fun m => m.created_at) (sessionMessages st cid)
    have hsplit := List.take_append_drop 10
      (sortAsc (fun m => m.created_at) (sessionMessages st cid))
    rw [← hsplit, List.pairwise_append] at hsorted
    have hm2' : m2 ∈ sortAsc (fun m => m.created_at) (sessionMessages st cid) :=
      (mem_sortAsc _ m2 _).mpr hm2
    rw [← hsplit, List.mem_append] at hm2'
    rcases hm2' with h | h
    · exact absurd h hnot
    · exact hsorted.2.2 m hm m2 h

/-- C2 witness: at the eleven-message fixture, the oldest fetched message is
no more recent than the unfetched most-recent one, and the fetch has length
`min 10 11`. -/
theorem getChatHistory_spec_witness :
    (mkMsg 0).created_at ≤ (mkMsg 10).created_at ∧
    (getChatHistory elevenStore 1 10 false).length
      = min 10 (sessionMessages elevenStore 1).length :=
  ⟨(getChatHistory_spec elevenStore 1).2.2.2 (mkMsg 0) (by decide) (mkMsg 10)
      (by decide) (by decide),
   (getChatHistory_spec elevenStore 1).2.2.1⟩

/-! ### Helper lemmas about the turn handler -/

theorem saveMessage_sessions (st : Store) (cid : Nat) (r c : String) (i n : Nat) (e : Bool) :
    ((saveMessage st cid r c i n e).1).sessions = st.sessions := by
  unfold saveMessage
  split <;> rfl

theorem updateChatSession_sessions_length (st : Store) (cid now : Nat) (e : Bool) :
    (updateChatSession st cid now e).sessions.length = st.sessions.length := by
  unfold updateChatSession
  split
  · rfl
  · simp

theorem turnWithSession_sessions_length (st1 : Store) (env : ChatEnv) (message : String)
    (sess : ChatSession) (fresh : FreshIds) :
    (turnWithSession st1 env message sess fresh).store.sessions.length
      = st1.sessions.length := by
  unfold turnWithSession
  cases hg : geminiOutcome env.gemini with
  | error msg =>
    simp only [hg]
    rw [saveMessage_sessions]
  | ok cand =>
    simp only [hg]
    rw [updateChatSession_sessions_length, saveMessage_sessions, saveMessage_sessions]

theorem handleChatTurn_valid (st : Store) (env : ChatEnv) (userId message : String)
    (chatId : Option Nat) (fresh : FreshIds) (hU : userId ≠ "") (hM : message ≠ "") :
    handleChatTurn st env userId message chatId fresh
      = match resolveSession st userId message chatId fresh env with
        | (st1, none) =>
          { response := { emptyResponse with
              status := 500, error := some "Failed to create/get chat session" },
            store := st1, generationCalled := false, promptSent := none }
        | (st1, some sess) => turnWithSession st1 env message sess fresh := by
  unfold handleChatTurn
  rw [if_neg (not_or.mpr ⟨hU, hM⟩)]

/-- With no `chatId`, the route derives a (non-falsy) title and therefore
always inserts a brand-new session when the insert succeeds. -/
theorem resolveSession_none_creates (st : Store) (userId message : String)
    (fresh : FreshIds) (env : ChatEnv) (hM : message ≠ "") (hIns : env.sessInsErr = false) :
    resolveSession st userId message none fresh env
      = ({ st with sessions := st.sessions ++
            [{ id := fresh.sessionId, user_id := userId, title := deriveTitle message,
               created_at := fresh.tSession, updated_at := fresh.tSession }] },
         some { id := fresh.sessionId, user_id := userId, title := deriveTitle message,
                created_at := fresh.tSession, updated_at := fresh.tSession }) := by
  have hT : deriveTitle message ≠ "" := deriveTitle_ne_empty message hM
  unfold resolveSession getOrCreateChatSession createSession titleFalsy
  rw [hIns]
  simp only [if_false]
  rw [if_neg (by simpa using hT)]
  simp [hT]

/-! ### C3: session resolution on POST /chat -/

/-- A store holding one session for user `u1`. -/
def oneSessionStore : Store :=
  { sessions :=
      [{ id := 5, user_id := "u1", title := "Old", created_at := 0, updated_at := 50 }],
    messages := [] }

/-- C3 counterexample: user `u1` has an existing session (id 5); a POST /chat
omitting `chatId` creates a second session (id 7) instead of reusing
session 5, because the route always passes a derived title to
`getOrCreateChatSession`, which then skips its reuse branch. -/
theorem chat_reuse_cex :
    (handleChatTurn oneSessionStore okEnv "u1" "Hello" none exFresh).store.sessions.length
      = 2 ∧
    (handleChatTurn oneSessionStore okEnv "u1" "Hello" none exFresh).response.chatId
      = some 7 ∧
    (handleChatTurn oneSessionStore okEnv "u1" "Hello" none exFresh).response.chatId
      ≠ some 5 := by
  decide

/-- C3 (amended): a POST /chat with no `chatId` always creates exactly one
new session — even for a user with existing sessions — because the route
always requests a derived title; `getOrCreateChatSession` reuses the
caller's most-recently-updated session only when invoked without a title. -/
theorem chat_session_resolution (st : Store) (env : ChatEnv) (userId message : String)
    (fresh : FreshIds) (hU : userId ≠ "") (hM : message ≠ "")
    (hIns : env.sessInsErr = false) :
    (handleChatTurn st env userId message none fresh).store.sessions.length
      = st.sessions.length + 1 ∧
    (userSessions st userId ≠ [] →
      ∃ s, getOrCreateChatSession st userId none fresh.sessionId fresh.tSession false false
          = (st, some s) ∧ s ∈ userSessions st userId ∧
        ∀ t ∈ userSessions st userId, t.updated_at ≤ s.updated_at) := by
  constructor
  · rw [handleChatTurn_valid st env userId message none fresh hU hM,
      resolveSession_none_creates st userId message fresh env hM hIns]
    rw [turnWithSession_sessions_length]
    simp
  · intro hne
    cases hd : sortDesc (fun s => s.updated_at) (userSessions st userId) with
    | nil =>
      exfalso
      have hlen := length_sortDesc (fun s => s.updated_at) (userSessions st userId)
      rw [hd] at hlen
      exact hne (List.length_eq_zero.mp hlen.symm)
    | cons a r =>
      have hmax := sortDesc_head_max (fun s => s.updated_at) (userSessions st userId) a
        (by rw [hd]; rfl)
      refine ⟨a, ?_, hmax.1, hmax.2⟩
      unfold getOrCreateChatSession titleFalsy
      simp only [if_true, if_false]
      rw [hd]
      rfl

/-- C3 witness: at the one-session fixture, the turn adds a session, and a
title-free `getOrCreateChatSession` would have reused session 5. -/
theorem chat_session_resolution_witness :
    (handleChatTurn oneSessionStore okEnv "u1" "Hello" none exFresh).store.sessions.length
      = oneSessionStore.sessions.length + 1 ∧
    ∃ s, getOrCreateChatSession oneSessionStore "u1" none exFresh.sessionId
        exFresh.tSession false false = (oneSessionStore, some s) ∧
      s ∈ userSessions oneSessionStore "u1" ∧
      ∀ t ∈ userSessions oneSessionStore "u1", t.updated_at ≤ s.updated_at :=
  ⟨(chat_session_resolution oneSessionStore okEnv "u1" "Hello" exFresh
      (by decide) (by decide) rfl).1,
   (chat_session_resolution oneSessionStore okEnv "u1" "Hello" exFresh
      (by decide) (by decide) rfl).2 (by decide)⟩

/-! ### More handler helper lemmas -/

theorem geminiOutcome_safety (g : GeminiResponse) (c : Candidate) (rest : List Candidate)
    (hOk : g.ok = true) (hC : g.candidates = some (c :: rest))
    (hF : c.finishReason = some "SAFETY") :
    geminiOutcome g
      = Except.error
          "Content was filtered for safety reasons. Please try rephrasing your message." := by
  unfold geminiOutcome
  rw [hOk, hC]
  simp [hF]

theorem turnWithSession_error (st1 : Store) (env : ChatEnv) (message : String)
    (sess : ChatSession) (fresh : FreshIds) (msg : String)
    (hg : geminiOutcome env.gemini = Except.error msg) :
    (turnWithSession st1 env message sess fresh).response
      = { emptyResponse with
          status := 500, error := some "Internal server error", details := some msg } ∧
    (turnWithSession st1 env message sess fresh).generationCalled = true ∧
    (turnWithSession st1 env message sess fresh).promptSent
      = some (buildContextPrompt message (getChatHistory
          (saveMessage st1 sess.id "user" message fresh.userMsgId fresh.tUserMsg
            env.saveUserErr).1 sess.id 10 env.historyErr)) := by
  unfold turnWithSession
  simp only [hg]
  exact ⟨trivial, trivial, trivial⟩

theorem getChatHistory_after_save_pos (st1 : Store) (cid : Nat) (content : String)
    (i n : Nat) :
    0 < (getChatHistory ((saveMessage st1 cid "user" content i n false).1)
        cid 10 false).length := by
  have hst : ((saveMessage st1 cid "user" content i n false).1).messages
      = st1.messages ++
        [{ id := i, chat_id := cid, role := "user", content := content, created_at := n }] :=
    rfl
  unfold getChatHistory
  rw [if_neg (by simp)]
  rw [List.length_take, length_sortAsc]
  unfold sessionMessages
  rw [hst, List.filter_append, List.length_append]
  simp [Nat.lt_min]

/-! ### C7: session failure aborts before the generation call -/

/-- C7: when session resolution/creation yields no session, the turn replies
500 "Failed to create/get chat session", the generation backend is never
called, and no prompt is ever assembled or sent. -/
theorem session_failure_aborts (st : Store) (env : ChatEnv) (userId message : String)
    (chatId : Option Nat) (fresh : FreshIds) (hU : userId ≠ "") (hM : message ≠ "")
    (hRes : (resolveSession st userId message chatId fresh env).2 = none) :
    (handleChatTurn st env userId message chatId fresh).response.status = 500 ∧
    (handleChatTurn st env userId message chatId fresh).response.error
      = some "Failed to create/get chat session" ∧
    (handleChatTurn st env userId message chatId fresh).generationCalled = false ∧
    (handleChatTurn st env userId message chatId fresh).promptSent = none := by
  rw [handleChatTurn_valid st env userId message chatId fresh hU hM]
  cases hp : resolveSession st userId message chatId fresh env with
  | mk st1 o =>
    rw [hp] at hRes
    cases o with
    | none => exact ⟨rfl, rfl, rfl, rfl⟩
    | some s => exact absurd hRes (by simp)

/-- An environment in which session creation fails. -/
def failEnv : ChatEnv := { okEnv with sessInsErr := true }

/-- C7 witness: with a failing session insert on the empty store, the turn is
a 500 and no generation call happens. -/
theorem session_failure_aborts_witness :
    (handleChatTurn emptyStore failEnv "u1" "Hello" none exFresh).response.status = 500 ∧
    (handleChatTurn emptyStore failEnv "u1" "Hello" none exFresh).generationCalled
      = false :=
  ⟨(session_failure_aborts emptyStore failEnv "u1" "Hello" none exFresh
      (by decide) (by decide) (by decide)).1,
   (session_failure_aborts emptyStore failEnv "u1" "Hello" none exFresh
      (by decide) (by decide) (by decide)).2.2.1⟩

/-! ### C4: the safety-filter outcome -/

/-- An environment whose generation response was safety-filtered. -/
def safetyEnv : ChatEnv := { okEnv with gemini := safetyGemini }

/-- C4 counterexample: a SAFETY finish reason yields exactly the generic
HTTP-500 internal-error response — `error` is "Internal server error" and
the content-filtered text only rides along in `details` — contradicting the
claim that the result is not a generic internal-error/500 response. -/
theorem safety_filter_cex :
    (handleChatTurn emptyStore safetyEnv "u1" "Hello" none exFresh).response.status = 500 ∧
    (handleChatTurn emptyStore safetyEnv "u1" "Hello" none exFresh).response.error
      = some "Internal server error" ∧
    (handleChatTurn emptyStore safetyEnv "u1" "Hello" none exFresh).response.details
      = some "Content was filtered for safety reasons. Please try rephrasing your message." ∧
    (handleChatTurn emptyStore safetyEnv "u1" "Hello" none exFresh).response.reply
      = none := by
  decide

/-- C4 (amended): when the top candidate's finish reason is SAFETY the turn
aborts with no reply, as an HTTP 500 whose `error` field is the generic
"Internal server error" and whose `details` field carries the user-facing
content-filtered message. -/
theorem safety_filter_maps (st : Store) (env : ChatEnv) (userId message : String)
    (chatId : Option Nat) (fresh : FreshIds) (c : Candidate) (rest : List Candidate)
    (st1 : Store) (sess : ChatSession)
    (hU : userId ≠ "") (hM : message ≠ "")
    (hres : resolveSession st userId message chatId fresh env = (st1, some sess))
    (hOk : env.gemini.ok = true) (hC : env.gemini.candidates = some (c :: rest))
    (hF : c.finishReason = some "SAFETY") :
    (handleChatTurn st env userId message chatId fresh).response.status = 500 ∧
    (handleChatTurn st env userId message chatId fresh).response.error
      = some "Internal server error" ∧
    (handleChatTurn st env userId message chatId fresh).response.details
      = some "Content was filtered for safety reasons. Please try rephrasing your message." ∧
    (handleChatTurn st env userId message chatId fresh).response.reply = none := by
  rw [handleChatTurn_valid st env userId message chatId fresh hU hM, hres]
  have hg := geminiOutcome_safety env.gemini c rest hOk hC hF
  obtain ⟨h1, _, _⟩ := turnWithSession_error st1 env message sess fresh _ hg
  refine ⟨?_, ?_, ?_, ?_⟩
  · show (turnWithSession st1 env message sess fresh).response.status = 500
    rw [h1]
  · show (turnWithSession st1 env message sess fresh).response.error
      = some "Internal server error"
    rw [h1]
  · show (turnWithSession st1 env message sess fresh).response.details
      = some "Content was filtered for safety reasons. Please try rephrasing your message."
    rw [h1]
  · show (turnWithSession st1 env message sess fresh).response.reply = none
    rw [h1]
    rfl

/-- The session the safety-filter witness resolves to. -/
def exSess : ChatSession :=
  { id := 7, user_id := "u1", title := "Hello", created_at := 100, updated_at := 100 }

/-- The store after that session is created. -/
def exStoreAfter : Store := { sessions := [exSess], messages := [] }

/-- C4 witness: the amended theorem applied at the concrete safety-filtered
exchange. -/
theorem safety_filter_maps_witness :
    (handleChatTurn emptyStore safetyEnv "u1" "Hello" none exFresh).response.details
      = some "Content was filtered for safety reasons. Please try rephrasing your message." :=
  (safety_filter_maps emptyStore safetyEnv "u1" "Hello" none exFresh
    { finishReason := some "SAFETY", text := none } [] exStoreAfter exSess
    (by decide) (by decide) (by decide) rfl rfl rfl).2.2.1

/-! ### C1: the contextUsed flag -/

/-- C1 counterexample: a first POST /chat on the empty store (no session, no
messages) succeeds with `contextUsed = true`, not `false`: the route saves
the user's own message before fetching history, so that message counts as
prior context for its own turn. -/
theorem first_turn_context_cex :
    emptyStore.sessions = [] ∧ emptyStore.messages = [] ∧
    (handleChatTurn emptyStore okEnv "u1" "Hello" none exFresh).response.status = 200 ∧
    (handleChatTurn emptyStore okEnv "u1" "Hello" none exFresh).response.contextUsed
      = some true := by
  decide

/-- C1 (amended): `contextUsed` reports whether the history fetched AFTER the
user-message save is non-empty; since that save precedes the fetch, a turn in
which the save and fetch both succeed can never report `contextUsed = false` —
on a first turn the flag is therefore `true`, the just-submitted message
itself counting as context. -/
theorem contextUsed_never_false (st : Store) (env : ChatEnv) (userId message : String)
    (chatId : Option Nat) (fresh : FreshIds)
    (hU : userId ≠ "") (hM : message ≠ "")
    (hSave : env.saveUserErr = false) (hHist : env.historyErr = false) :
    (handleChatTurn st env userId message chatId fresh).response.contextUsed
      ≠ some false := by
  rw [handleChatTurn_valid st env userId message chatId fresh hU hM]
  cases hp : resolveSession st userId message chatId fresh env with
  | mk st1 o =>
    cases o with
    | none =>
      intro hcontra
      exact Option.noConfusion hcontra
    | some sess =>
      show (turnWithSession st1 env message sess fresh).response.contextUsed ≠ some false
      unfold turnWithSession
      cases hg : geminiOutcome env.gemini with
      | error msg =>
        simp only [hg]
        intro hcontra
        exact Option.noConfusion hcontra
      | ok cand =>
        simp only [hg]
        rw [hSave, hHist]
        have hpos := getChatHistory_after_save_pos st1 sess.id message
          fresh.userMsgId fresh.tUserMsg
        simp [decide_eq_true hpos]

/-- C1 witness: the amended theorem at the concrete first turn. -/
theorem contextUsed_never_false_witness :
    (handleChatTurn emptyStore okEnv "u1" "Hello" none exFresh).response.contextUsed
      ≠ some false :=
  contextUsed_never_false emptyStore okEnv "u1" "Hello" none exFresh
    (by decide) (by decide) rfl rfl

/-! ### C10: history-read failures are swallowed -/

/-- An environment whose history read fails. -/
def histErrEnv : ChatEnv := { okEnv with historyErr := true }

/-- C10: a failing message-store read makes `getChatHistory` return `[]`;
the turn then builds its prompt as if the session had no history, still
succeeds whenever generation succeeds (status 200), and reports
`contextUsed = false` — a history-read failure never aborts the turn. -/
theorem history_failure_swallowed (st : Store) (cid lim : Nat) (env : ChatEnv)
    (userId message : String) (chatId : Option Nat) (fresh : FreshIds)
    (st1 : Store) (sess : ChatSession)
    (hU : userId ≠ "") (hM : message ≠ "")
    (hres : resolveSession st userId message chatId fresh env = (st1, some sess))
    (hHist : env.historyErr = true) :
    getChatHistory st cid lim true = [] ∧
    (handleChatTurn st env userId message chatId fresh).promptSent
      = some (buildContextPrompt message []) ∧
    ∀ c, geminiOutcome env.gemini = Except.ok c →
      (handleChatTurn st env userId message chatId fresh).response.status = 200 ∧
      (handleChatTurn st env userId message chatId fresh).response.contextUsed
        = some false := by
  refine ⟨rfl, ?_, ?_⟩
  · rw [handleChatTurn_valid st env userId message chatId fresh hU hM, hres]
    show (turnWithSession st1 env message sess fresh).promptSent
      = some (buildContextPrompt message [])
    unfold turnWithSession
    cases hg : geminiOutcome env.gemini with
    | error msg =>
      simp only [hg]
      rw [hHist]
      rfl
    | ok cand =>
      simp only [hg]
      rw [hHist]
      rfl
  · intro c hg
    rw [handleChatTurn_valid st env userId message chatId fresh hU hM, hres]
    constructor
    · show (turnWithSession st1 env message sess fresh).response.status = 200
      unfold turnWithSession
      simp only [hg]
    · show (turnWithSession st1 env message sess fresh).response.contextUsed
        = some false
      unfold turnWithSession
      simp only [hg]
      rw [hHist]
      rfl

/-- C10 witness: the theorem at the concrete one-session resolution with a
failing history read and a successful generation. -/
theorem history_failure_swallowed_witness :
    getChatHistory emptyStore 1 10 true = [] ∧
    (handleChatTurn emptyStore histErrEnv "u1" "Hello" none exFresh).promptSent
      = some (buildContextPrompt "Hello" []) ∧
    (handleChatTurn emptyStore histErrEnv "u1" "Hello" none exFresh).response.status
      = 200 ∧
    (handleChatTurn emptyStore histErrEnv "u1" "Hello" none exFresh).response.contextUsed
      = some false :=
  ⟨(history_failure_swallowed emptyStore 1 10 histErrEnv "u1" "Hello" none exFresh
      exStoreAfter exSess (by decide) (by decide) (by decide) rfl).1,
   (history_failure_swallowed emptyStore 1 10 histErrEnv "u1" "Hello" none exFresh
      exStoreAfter exSess (by decide) (by decide) (by decide) rfl).2.1,
   ((history_failure_swallowed emptyStore 1 10 histErrEnv "u1" "Hello" none exFresh
      exStoreAfter exSess (by decide) (by decide) (by decide) rfl).2.2
      { finishReason := some "STOP", text := some "Hi there" } rfl).1,
   ((history_failure_swallowed emptyStore 1 10 histErrEnv "u1" "Hello" none exFresh
      exStoreAfter exSess (by decide) (by decide) (by decide) rfl).2.2
      { finishReason := some "STOP", text := some "Hi there" } rfl).2⟩

/-! ### Helper lemmas about deletion -/

theorem deleteChatSession_sessions (st : Store) (cid : Nat) (mErr sErr : Bool) :
    (deleteChatSession st cid mErr sErr).1.sessions
      = if sErr then st.sessions else st.sessions.filter (fun s => s.id != cid) := by
  unfold deleteChatSession
  cases mErr <;> cases sErr <;> rfl

theorem deleteChatSession_messages (st : Store) (cid : Nat) (mErr sErr : Bool) :
    (deleteChatSession st cid mErr sErr).1.messages
      = if mErr then st.messages else st.messages.filter (fun m => m.chat_id != cid) := by
  unfold deleteChatSession
  cases mErr <;> cases sErr <;> rfl

theorem deleteChatSession_status (st : Store) (cid : Nat) (mErr sErr : Bool) :
    (deleteChatSession st cid mErr sErr).2.status = if sErr then 500 else 200 := by
  unfold deleteChatSession
  cases mErr <;> cases sErr <;> rfl

/-! ### C8: tenant/session scoping of deletion and message reads -/

/-- Fixture sessions and messages of two different users. -/
def sessA : ChatSession :=
  { id := 1, user_id := "u1", title := "a", created_at := 0, updated_at := 0 }

def sessB : ChatSession :=
  { id := 2, user_id := "u2", title := "b", created_at := 0, updated_at := 0 }

def msgA : ChatMessage :=
  { id := 1, chat_id := 1, role := "user", content := "x", created_at := 0 }

def msgB : ChatMessage :=
  { id := 2, chat_id := 2, role := "user", content := "y", created_at := 0 }

def twoUserStore : Store := { sessions := [sessA, sessB], messages := [msgA, msgB] }

/-- C8: deletion never invents rows, removes only rows keyed by the deleted
session id — so, with unique session ids, every session of any OTHER user
(and every message of any other session) survives — and the message read
returns only messages of the requested session. -/
theorem scoped_delete_and_reads (st : Store) (cid : Nat) (mErr sErr : Bool)
    (owner : ChatSession) (hOwn : owner ∈ st.sessions) (hOid : owner.id = cid)
    (hUniq : ∀ s1 ∈ st.sessions, ∀ s2 ∈ st.sessions, s1.id = s2.id → s1 = s2) :
    (∀ s ∈ (deleteChatSession st cid mErr sErr).1.sessions, s ∈ st.sessions) ∧
    (∀ m ∈ (deleteChatSession st cid mErr sErr).1.messages, m ∈ st.messages) ∧
    (∀ s ∈ st.sessions, s.id ≠ cid → s ∈ (deleteChatSession st cid mErr sErr).1.sessions) ∧
    (∀ s ∈ st.sessions, s.user_id ≠ owner.user_id →
      s ∈ (deleteChatSession st cid mErr sErr).1.sessions) ∧
    (∀ m ∈ st.messages, m.chat_id ≠ cid →
      m ∈ (deleteChatSession st cid mErr sErr).1.messages) ∧
    (∀ m ∈ fetchChatMessages st cid, m.chat_id = cid) := by
  rw [deleteChatSession_sessions, deleteChatSession_messages]
  refine ⟨?_, ?_, ?_, ?_, ?_, ?_⟩
  · intro s hs
    split at hs
    · exact hs
    · exact (List.mem_filter.mp hs).1
  · intro m hm
    split at hm
    · exact hm
    · exact (List.mem_filter.mp hm).1
  · intro s hs hid
    split
    · exact hs
    · exact List.mem_filter.mpr ⟨hs, by simpa [bne_iff_ne] using hid⟩
  · intro s hs huid
    have hid : s.id ≠ cid := by
      intro h
      exact huid (congrArg ChatSession.user_id (hUniq s hs owner hOwn (h.trans hOid.symm)))
    split
    · exact hs
    · exact List.mem_filter.mpr ⟨hs, by simpa [bne_iff_ne] using hid⟩
  · intro m hm hcid
    split
    · exact hm
    · exact List.mem_filter.mpr ⟨hm, by simpa [bne_iff_ne] using hcid⟩
  · intro m hm
    unfold fetchChatMessages at hm
    have hm' := (mem_sortAsc _ m _).mp hm
    have := List.mem_filter.mp hm'
    simpa using this.2

/-- C8 witness: deleting user u1's session 1 from the two-user store leaves
user u2's session and message untouched, and the message read for session 1
only returned session-1 rows. -/
theorem scoped_delete_and_reads_witness :
    sessB ∈ (deleteChatSession twoUserStore 1 false false).1.sessions ∧
    msgB ∈ (deleteChatSession twoUserStore 1 false false).1.messages ∧
    msgA.chat_id = 1 :=
  ⟨(scoped_delete_and_reads twoUserStore 1 false false sessA (by decide) rfl
      (by decide)).2.2.2.1 sessB (by decide) (by decide),
   (scoped_delete_and_reads twoUserStore 1 false false sessA (by decide) rfl
      (by decide)).2.2.2.2.1 msgB (by decide) (by decide),
   (scoped_delete_and_reads twoUserStore 1 false false sessA (by decide) rfl
      (by decide)).2.2.2.2.2 msgA (by decide)⟩

/-! ### C9: the deletion cascade -/

/-- A store with one session owning one message. -/
def delStore : Store := { sessions := [sessA], messages := [msgA] }

/-- C9 counterexample: when the (unsurfaced) message deletion fails but the
session-row deletion succeeds, the request reports success yet the session's
message is still there — so "after a successful delete the session's messages
are gone" fails. -/
theorem delete_cascade_cex :
    (deleteChatSession delStore 1 true false).2.status = 200 ∧
    (deleteChatSession delStore 1 true false).2.message
      = some "Chat session deleted successfully" ∧
    fetchChatMessages (deleteChatSession delStore 1 true false).1 1 ≠ [] := by
  decide

/-- C9 (amended): the request fails exactly when the session-row deletion
fails; the message deletion happens first (its effect is present even when
the session-row deletion then fails); after a delete whose session-row step
succeeded the session is gone from every user's session list, and the
session's messages are gone provided the message deletion also succeeded. -/
theorem delete_session_spec (st : Store) (cid : Nat) (mErr sErr : Bool) :
    ((deleteChatSession st cid mErr sErr).2.status = 500 ↔ sErr = true) ∧
    (mErr = false → ∀ m ∈ (deleteChatSession st cid mErr sErr).1.messages,
      m.chat_id ≠ cid) ∧
    (sErr = false → ∀ s ∈ (deleteChatSession st cid mErr sErr).1.sessions, s.id ≠ cid) ∧
    (sErr = false → ∀ u, ∀ s ∈ fetchChatSessions (deleteChatSession st cid mErr sErr).1 u,
      s.id ≠ cid) ∧
    (mErr = false → fetchChatMessages (deleteChatSession st cid mErr sErr).1 cid = []) := by
  have hmess := deleteChatSession_messages st cid mErr sErr
  have hsess := deleteChatSession_sessions st cid mErr sErr
  refine ⟨?_, ?_, ?_, ?_, ?_⟩
  · rw [deleteChatSession_status]
    cases sErr <;> simp
  · intro hm m hmem
    rw [hmess, hm, if_neg (by simp)] at hmem
    have := (List.mem_filter.mp hmem).2
    simpa [bne_iff_ne] using this
  · intro hs s hmem
    rw [hsess, hs, if_neg (by simp)] at hmem
    have := (List.mem_filter.mp hmem).2
    simpa [bne_iff_ne] using this
  · intro hs u s hmem
    unfold fetchChatSessions userSessions at hmem
    have hmem' := (mem_sortDesc _ s _).mp hmem
    have h1 := (List.mem_filter.mp hmem').1
    rw [hsess, hs, if_neg (by simp)] at h1
    have := (List.mem_filter.mp h1).2
    simpa [bne_iff_ne] using this
  · intro hm
    suffices hnil : sessionMessages (deleteChatSession st cid mErr sErr).1 cid = [] by
      unfold fetchChatMessages
      rw [hnil]
      rfl
    unfold sessionMessages
    rw [hmess, hm, if_neg (by simp), List.filter_filter]
    rw [List.filter_eq_nil_iff]
    intro m _
    by_cases h : m.chat_id = cid <;> simp [h]

/-- C9 witness: the amended theorem at the one-session store with both
deletions succeeding: the message store for session 1 is empty afterwards. -/
theorem delete_session_spec_witness :
    fetchChatMessages (deleteChatSession delStore 1 false false).1 1 = [] ∧
    ((deleteChatSession delStore 1 false false).2.status = 500 ↔ False) :=
  ⟨(delete_session_spec delStore 1 false false).2.2.2.2 rfl,
   by
    have h := (delete_session_spec delStore 1 false false).1
    simpa using h⟩

end Chatbot
